import Mathlib

/-!
Verification of the conversation-storage service in `src/main.py`
(FastAPI chat service with MySQL persistence and an external
text-generation collaborator).

The database table `chats` is modelled as a list of rows in insertion
order; SQLAlchemy's `select(Chat).filter_by(...)` followed by
`.scalars().first()` is `List.find?`; `session.commit()` either applies
the staged change or fails with `SQLAlchemyError`, in which case the
handler rolls back and the table is unchanged.  The external Gemini
collaborator is modelled as an explicit behaviour value describing
whether the call raises, returns a falsy response, or returns text.
-/

namespace FastapiChat

/-- A row of the `chats` table (class `Chat`, src/main.py lines 32-36):
primary key `conversation_id`, indexed `user_id`, and the message list
stored as a JSON array of strings. -/
structure Chat where
  conversation_id : String
  user_id : String
  messages : List String
  deriving Repr, DecidableEq

/-- Request body for creating/appending (`ChatMessage`, lines 39-41). -/
structure ChatMessage where
  user_id : String
  message : String
  deriving Repr, DecidableEq

/-- Response body for a conversation (`ChatConversation`, lines 43-46). -/
structure ChatConversation where
  conversation_id : String
  user_id : String
  messages : List String
  deriving Repr, DecidableEq

/-- Errors raised as `HTTPException` by the handlers: 404 "Conversation
not found", 400 "User mismatch", 500 "Database error". -/
inductive ApiError where
  | notFound
  | userMismatch
  | dbError
  deriving Repr, DecidableEq

/-- The `chats` table: rows in insertion order. -/
abbrev Db := List Chat

/-- `select(Chat).filter_by(conversation_id=cid)` + `.scalars().first()`
(used at lines 87-88, 98-99, 129-130, 158-159). -/
def getChatRow (db : Db) (cid : String) : Option Chat :=
  db.find? (fun c => c.conversation_id = cid)

/-- `POST /chats` handler `store_chat` (lines 70-82).  `conv_id` stands
for the freshly generated `str(uuid.uuid4())`; `commitOk` is whether
`session.commit()` succeeds.  Returns the table after the request and
the HTTP outcome. -/
def store_chat (db : Db) (conv_id : String) (m : ChatMessage)
    (commitOk : Bool) : Db × Except ApiError ChatConversation :=
  let chat : Chat := ⟨conv_id, m.user_id, [m.message]⟩
  if commitOk then
    (db ++ [chat], .ok ⟨conv_id, m.user_id, [m.message]⟩)
  else
    (db, .error .dbError)

/-- `GET /chats/{conversation_id}` handler `get_chat` (lines 85-93). -/
def get_chat (db : Db) (conversation_id : String) :
    Except ApiError ChatConversation :=
  match getChatRow db conversation_id with
  | none => .error .notFound
  | some chat =>
      .ok ⟨chat.conversation_id, chat.user_id, chat.messages⟩

/-- `POST /chats/{conversation_id}` handler `add_message` (lines 96-114):
404 if the conversation is absent, 400 if `user_id` differs from the
stored owner, otherwise `chat.messages.append(message.message)`
(line 107) followed by `session.commit()` (rollback + 500 on commit
failure).  The append mutates only the in-memory ORM object: `messages`
is a plain `Column(JSON)` (line 36) — no `MutableList`, no
`flag_modified` — and SQLAlchemy does not detect in-place mutation of a
plain JSON column, so the row is never marked dirty and the commit
emits no UPDATE for it.  The persisted table is therefore unchanged
even on success; the in-memory change dies with the request's session. -/
def add_message (db : Db) (conversation_id : String) (m : ChatMessage)
    (commitOk : Bool) : Db × Except ApiError String :=
  match getChatRow db conversation_id with
  | none => (db, .error .notFound)
  | some chat =>
      if chat.user_id ≠ m.user_id then
        (db, .error .userMismatch)
      else
        if commitOk then
          (db, .ok "Message added successfully")
        else
          (db, .error .dbError)

/-- `session.delete(chat)` (line 164): the fetched row — the first row
matching the primary key — is removed from the table. -/
def deleteRow (db : Db) (cid : String) : Db :=
  db.eraseP (fun c => c.conversation_id = cid)

/-- `DELETE /chats/{conversation_id}` handler `delete_chat`
(lines 156-171). -/
def delete_chat (db : Db) (conversation_id : String)
    (commitOk : Bool) : Db × Except ApiError String :=
  match getChatRow db conversation_id with
  | none => (db, .error .notFound)
  | some _ =>
      let staged := deleteRow db conversation_id
      if commitOk then
        (staged, .ok "Conversation deleted successfully")
      else
        (db, .error .dbError)

/-- The rows of a user, as returned by
`select(Chat).filter_by(user_id=user_id)` (lines 143-145). -/
def userRows (db : Db) (uid : String) : List Chat :=
  db.filter (fun c => c.user_id = uid)

/-- Conversion of a row to the response model (lines 150-153). -/
def toConversation (c : Chat) : ChatConversation :=
  ⟨c.conversation_id, c.user_id, c.messages⟩

/-- `GET /users/{user_id}/chats` handler `get_user_chats`
(lines 141-153): fetch all of the user's rows, then return the Python
slice `chats[(page-1)*limit : (page-1)*limit + limit]` converted to
response models.  `chats[start:end]` with `end - start = limit` is
`(drop start).take limit`. -/
def get_user_chats (db : Db) (user_id : String) (page limit : Nat) :
    List ChatConversation :=
  let chats := userRows db user_id
  let start := (page - 1) * limit
  ((chats.drop start).take limit).map toConversation

/-- What the Gemini response object's `.text` property does when read:
it may itself raise (caught by the surrounding `except`), or yield the
text attribute (`none` models a missing/None attribute, which is falsy
in Python, as is the empty string). -/
structure GenResponse where
  text : Except String (Option String)
  deriving Repr

/-- Behaviour of `model.generate_content(...)` (line 121) on one call:
either it raises, or it returns a response object (`none` models a
falsy/None response). -/
inductive CollabResult where
  | raises (err : String)
  | responds (response : Option GenResponse)
  deriving Repr

/-- Python truthiness of the value read from `response.text`: `None`
and the empty string are falsy. -/
def textTruthy : Option String → Bool
  | none => false
  | some t => t ≠ ""

/-- `generate_summary` (lines 117-124): build the prompt
`"Summarize this chat: " ++ text`, call the collaborator, and translate
`response.text.strip() if response and response.text else
"No summary available."`; any exception — from the call or from reading
`.text` — is caught and turned into
`"Error generating summary: " ++ str(e)`. -/
def generate_summary (collab : String → CollabResult) (text : String) :
    String :=
  match collab ("Summarize this chat: " ++ text) with
  | .raises e => "Error generating summary: " ++ e
  | .responds none => "No summary available."
  | .responds (some resp) =>
      match resp.text with
      | .error e => "Error generating summary: " ++ e
      | .ok t => if textTruthy t then (t.getD "").trim
                 else "No summary available."

/-- Response model of the summarize endpoint (`SummaryResponse`,
lines 51-53). -/
structure SummaryResponse where
  conversation_id : String
  summary : String
  deriving Repr, DecidableEq

/-- `summarize_chat` handler body (lines 127-138): 404 if the
conversation is absent, otherwise join the messages with single spaces
(`" ".join(chat.messages)`, line 135) and summarize. -/
def summarize_chat (db : Db) (conversation_id : String)
    (collab : String → CollabResult) : Except ApiError SummaryResponse :=
  match getChatRow db conversation_id with
  | none => .error .notFound
  | some chat =>
      let full_chat := String.intercalate " " chat.messages
      .ok ⟨conversation_id, generate_summary collab full_chat⟩

/-! ### HTTP routing

FastAPI (Starlette) matches an incoming request against the registered
routes in registration order — the order the decorated handlers appear
in the file — and dispatches to the first route whose method and path
template match.  A template segment is either a literal or a `{param}`
placeholder matching any single segment. -/

/-- The handlers of src/main.py, in order of appearance. -/
inductive Handler where
  | storeChat | getChat | addMessage | summarizeChat
  | getUserChats | deleteChat
  deriving Repr, DecidableEq

/-- HTTP methods used by the app. -/
inductive Method where
  | get | post | delete
  deriving Repr, DecidableEq

/-- One segment of a path template: a literal or a `{param}`. -/
inductive RouteSeg where
  | lit (s : String)
  | param (name : String)
  deriving Repr, DecidableEq

/-- A registered route: method, path template, handler. -/
structure Route where
  method : Method
  segments : List RouteSeg
  handler : Handler
  deriving Repr, DecidableEq

/-- The route table of src/main.py, in registration (file) order:
`POST /chats` (line 70), `GET /chats/{conversation_id}` (line 85),
`POST /chats/{conversation_id}` (line 96), `POST /chats/summarize`
(line 127), `GET /users/{user_id}/chats` (line 141),
`DELETE /chats/{conversation_id}` (line 156). -/
def routes : List Route :=
  [ ⟨.post, [.lit "chats"], .storeChat⟩,
    ⟨.get, [.lit "chats", .param "conversation_id"], .getChat⟩,
    ⟨.post, [.lit "chats", .param "conversation_id"], .addMessage⟩,
    ⟨.post, [.lit "chats", .lit "summarize"], .summarizeChat⟩,
    ⟨.get, [.lit "users", .param "user_id", .lit "chats"], .getUserChats⟩,
    ⟨.delete, [.lit "chats", .param "conversation_id"], .deleteChat⟩ ]

/-- Does a template segment match a concrete path segment? -/
def segMatches : RouteSeg → String → Bool
  | .lit s, x => s = x
  | .param _, _ => true

/-- Does a path template match a concrete path (same length, segmentwise
match)? -/
def pathMatches : List RouteSeg → List String → Bool
  | [], [] => true
  | s :: ss, x :: xs => segMatches s x && pathMatches ss xs
  | _, _ => false

/-- Starlette dispatch: the first registered route whose method and path
match. -/
def dispatch (m : Method) (path : List String) : Option Route :=
  routes.find? (fun r => r.method = m && pathMatches r.segments path)

/-! ### Helper lemmas -/

/-- A row whose key differs from `cid` is untouched by lookup; if the
whole prefix fails the key, lookup continues in the suffix. -/
lemma find?_append_of_none {α : Type} {p : α → Bool} {l₁ l₂ : List α}
    (h : l₁.find? p = none) : (l₁ ++ l₂).find? p = l₂.find? p := by
  induction l₁ with
  | nil => rfl
  | cons a t ih =>
      rw [List.find?_cons] at h
      cases hpa : p a with
      | true => rw [hpa] at h; exact absurd h (by simp)
      | false =>
          rw [hpa] at h
          simpa [List.find?_cons, hpa] using ih h

/-- After erasing the first row with key `cid` from a table whose keys
are pairwise distinct (the primary-key invariant of the `chats` table),
no row with key `cid` remains. -/
lemma getChatRow_deleteRow (db : Db) (cid : String)
    (hnodup : (db.map Chat.conversation_id).Nodup) :
    getChatRow (deleteRow db cid) cid = none := by
  induction db with
  | nil => rfl
  | cons c rest ih =>
      simp only [List.map_cons, List.nodup_cons] at hnodup
      by_cases h : c.conversation_id = cid
      · have : getChatRow rest cid = none := by
          apply List.find?_eq_none.2
          intro x hx
          simp only [decide_eq_true_eq]
          intro hxcid
          exact hnodup.1 (by
            rw [← h] at hxcid
            exact hxcid ▸ List.mem_map_of_mem Chat.conversation_id hx)
        simpa [getChatRow, deleteRow, List.eraseP_cons, h] using this
      · have := ih hnodup.2
        simpa [getChatRow, deleteRow, List.eraseP_cons, h,
               List.find?_cons] using this

/-! ### Claims -/

/-- C1: for every stored conversation and every append request whose
`user_id` differs from the conversation's owning `user_id`,
`add_message` (POST /chats/{conversation_id}) raises the 400
"User mismatch" error and leaves the table — in particular the
conversation's messages list — completely unchanged, whatever the
commit outcome would have been. -/
theorem append_ownership_mismatch (db : Db) (cid : String)
    (m : ChatMessage) (commitOk : Bool) (chat : Chat)
    (hfound : getChatRow db cid = some chat)
    (hmism : chat.user_id ≠ m.user_id) :
    add_message db cid m commitOk = (db, .error .userMismatch) := by
  unfold add_message
  rw [hfound]
  simp [hmism]

/-- Witness for C1 at a concrete table: owner "alice", appender "bob". -/
theorem append_ownership_mismatch_witness :
    add_message [⟨"c1", "alice", ["hi"]⟩] "c1" ⟨"bob", "yo"⟩ true
      = ([⟨"c1", "alice", ["hi"]⟩], .error .userMismatch) :=
  append_ownership_mismatch [⟨"c1", "alice", ["hi"]⟩] "c1" ⟨"bob", "yo"⟩
    true ⟨"c1", "alice", ["hi"]⟩ (by decide) (by decide)

/-- A table holding 25 conversations for user "u". -/
def ex25 : Db :=
  (List.range 25).map (fun i => ⟨Nat.repr i, "u", ["m"]⟩)

/-- C2: for every `page ≥ 1` and `limit ≥ 1`, `get_user_chats`
(GET /users/{user_id}/chats) returns exactly the slice
`[(page-1)*limit : (page-1)*limit + limit]` of the user's full
conversation list; with 25 stored conversations, `page=1,limit=10`
yields 10, `page=3,limit=10` yields 5, and `page=4,limit=10` yields 0. -/
theorem pagination_slice (db : Db) (uid : String) (page limit : Nat)
    (_hp : 1 ≤ page) (_hl : 1 ≤ limit) :
    get_user_chats db uid page limit =
      (((userRows db uid).map toConversation).drop
        ((page - 1) * limit)).take limit
    ∧ (get_user_chats ex25 "u" 1 10).length = 10
    ∧ (get_user_chats ex25 "u" 3 10).length = 5
    ∧ (get_user_chats ex25 "u" 4 10).length = 0 := by
  refine ⟨?_, by decide, by decide, by decide⟩
  simp [get_user_chats, List.map_take, List.map_drop]

/-- Witness for C2 at `page = 3`, `limit = 10`. -/
theorem pagination_slice_witness :
    get_user_chats ex25 "u" 3 10 =
      (((userRows ex25 "u").map toConversation).drop 20).take 10
    ∧ (get_user_chats ex25 "u" 3 10).length = 5 := by
  have h := pagination_slice ex25 "u" 3 10 (by decide) (by decide)
  exact ⟨h.1, h.2.2.1⟩

/-- C3 (code bug): the claim says an authorized append is persisted, so
a subsequent fetch returns the previous messages followed by the new
one.  The code does not do this: `messages` is a plain `Column(JSON)`
(line 36), so the in-place `chat.messages.append` (line 107) never
marks the row dirty and `session.commit()` emits no UPDATE — the append
is silently lost.  At the failing input — owner "alice" appending "bye"
to her conversation `c1` that holds `["hi"]` — the handler reports
success, yet a subsequent fetch returns the old list `["hi"]`, which
differs from the `["hi", "bye"]` the claim requires. -/
theorem append_lost_on_plain_json_column :
    (add_message [⟨"c1", "alice", ["hi"]⟩] "c1" ⟨"alice", "bye"⟩ true).2
      = .ok "Message added successfully"
    ∧ get_chat
        (add_message [⟨"c1", "alice", ["hi"]⟩] "c1" ⟨"alice", "bye"⟩
          true).1 "c1"
      = .ok ⟨"c1", "alice", ["hi"]⟩
    ∧ (⟨"c1", "alice", ["hi"]⟩ : ChatConversation)
        ≠ ⟨"c1", "alice", ["hi", "bye"]⟩ := by
  refine ⟨rfl, rfl, by decide⟩

/-- C4: `generate_summary` never lets a collaborator failure escape:
it is a total function into `String` (so nothing is raised past the
gateway boundary), and every behaviour of the collaborator is covered —
when the call raises, or reading the response's `text` raises, it
returns the fallback string naming the failure; when the call returns a
falsy response, or a response whose text is missing or empty, it
returns the fallback string `"No summary available."`; and when the
call succeeds with non-empty text it returns that text trimmed of
leading and trailing whitespace. -/
theorem summary_never_raises :
    (∀ (collab : String → CollabResult) (text e : String),
      collab ("Summarize this chat: " ++ text) = .raises e →
      generate_summary collab text = "Error generating summary: " ++ e)
    ∧ (∀ (collab : String → CollabResult) (text e : String)
        (resp : GenResponse),
      collab ("Summarize this chat: " ++ text) = .responds (some resp) →
      resp.text = .error e →
      generate_summary collab text = "Error generating summary: " ++ e)
    ∧ (∀ (collab : String → CollabResult) (text : String),
      collab ("Summarize this chat: " ++ text) = .responds none →
      generate_summary collab text = "No summary available.")
    ∧ (∀ (collab : String → CollabResult) (text : String)
        (resp : GenResponse),
      collab ("Summarize this chat: " ++ text) = .responds (some resp) →
      resp.text = .ok none →
      generate_summary collab text = "No summary available.")
    ∧ (∀ (collab : String → CollabResult) (text : String)
        (resp : GenResponse),
      collab ("Summarize this chat: " ++ text) = .responds (some resp) →
      resp.text = .ok (some "") →
      generate_summary collab text = "No summary available.")
    ∧ (∀ (collab : String → CollabResult) (text t : String)
        (resp : GenResponse),
      collab ("Summarize this chat: " ++ text) = .responds (some resp) →
      resp.text = .ok (some t) → t ≠ "" →
      generate_summary collab text = t.trim) := by
  refine ⟨?_, ?_, ?_, ?_, ?_, ?_⟩
  · intro collab text e h
    simp [generate_summary, h]
  · intro collab text e resp h ht
    simp [generate_summary, h, ht]
  · intro collab text h
    simp [generate_summary, h]
  · intro collab text resp h ht
    simp [generate_summary, h, ht, textTruthy]
  · intro collab text resp h ht
    simp [generate_summary, h, ht, textTruthy]
  · intro collab text t resp h ht hne
    simp [generate_summary, h, ht, textTruthy, hne]

/-- Witness for C4: a raising collaborator yields the failure-naming
fallback; a falsy response yields `"No summary available."`; a
successful collaborator with text " s " yields the trimmed text. -/
theorem summary_never_raises_witness :
    generate_summary (fun _ => .raises "boom") "hi"
      = "Error generating summary: boom"
    ∧ generate_summary (fun _ => .responds none) "hi"
      = "No summary available."
    ∧ generate_summary
        (fun _ => .responds (some ⟨.ok (some " s ")⟩)) "hi"
      = (" s ").trim :=
  ⟨summary_never_raises.1 (fun _ => .raises "boom") "hi" "boom" rfl,
   summary_never_raises.2.2.1 (fun _ => .responds none) "hi" rfl,
   summary_never_raises.2.2.2.2.2
     (fun _ => .responds (some ⟨.ok (some " s ")⟩))
     "hi" " s " ⟨.ok (some " s ")⟩ rfl rfl (by decide)⟩

/-- C5: `delete_chat` (DELETE /chats/{conversation_id}) raises the 404
error when the id is absent; after a successful delete — under the
primary-key invariant that `conversation_id`s are pairwise distinct —
a subsequent `get_chat` of the same id raises the 404 error: the row is
fully removed, no tombstone. -/
theorem delete_then_fetch (db : Db) (cid : String) (commitOk : Bool)
    (hnodup : (db.map Chat.conversation_id).Nodup) :
    (getChatRow db cid = none →
      delete_chat db cid commitOk = (db, .error .notFound))
    ∧ (getChatRow db cid ≠ none →
        (delete_chat db cid true).2 = .ok "Conversation deleted successfully"
        ∧ get_chat (delete_chat db cid true).1 cid = .error .notFound) := by
  constructor
  · intro habs
    unfold delete_chat
    rw [habs]
  · intro hpres
    cases hrow : getChatRow db cid with
    | none => exact absurd hrow hpres
    | some chat =>
        constructor
        · unfold delete_chat
          rw [hrow]
          rfl
        · have h1 : (delete_chat db cid true).1 = deleteRow db cid := by
            unfold delete_chat
            rw [hrow]
            rfl
          rw [h1]
          unfold get_chat
          rw [getChatRow_deleteRow db cid hnodup]

/-- Witness for C5: deleting the only conversation, then fetching it. -/
theorem delete_then_fetch_witness :
    (delete_chat [⟨"c1", "u", ["hi"]⟩] "c1" true).2
      = .ok "Conversation deleted successfully"
    ∧ get_chat (delete_chat [⟨"c1", "u", ["hi"]⟩] "c1" true).1 "c1"
      = .error .notFound :=
  (delete_then_fetch [⟨"c1", "u", ["hi"]⟩] "c1" true (by decide)).2
    (by decide)

/-- C6: round-trip — creating a conversation via `store_chat` under a
freshly generated id (one not already in the table, as `uuid4` supplies)
and then fetching that id returns the identical `user_id` and the
identical one-element messages list `[message]`. -/
theorem store_then_fetch (db : Db) (conv_id : String) (m : ChatMessage)
    (hfresh : getChatRow db conv_id = none) :
    (store_chat db conv_id m true).2 = .ok ⟨conv_id, m.user_id, [m.message]⟩
    ∧ get_chat (store_chat db conv_id m true).1 conv_id =
        .ok ⟨conv_id, m.user_id, [m.message]⟩ := by
  constructor
  · rfl
  · have h1 : (store_chat db conv_id m true).1
        = db ++ [⟨conv_id, m.user_id, [m.message]⟩] := rfl
    rw [h1]
    unfold get_chat getChatRow
    rw [find?_append_of_none hfresh]
    simp [List.find?_cons]

/-- Witness for C6: storing into a table that already holds another
conversation, then fetching the new id. -/
theorem store_then_fetch_witness :
    (store_chat [⟨"c0", "v", ["old"]⟩] "c1" ⟨"u", "hello"⟩ true).2
      = .ok ⟨"c1", "u", ["hello"]⟩
    ∧ get_chat (store_chat [⟨"c0", "v", ["old"]⟩] "c1" ⟨"u", "hello"⟩
        true).1 "c1"
      = .ok ⟨"c1", "u", ["hello"]⟩ :=
  store_then_fetch [⟨"c0", "v", ["old"]⟩] "c1" ⟨"u", "hello"⟩ (by decide)

/-- C10: when the collaborator call completes without raising but the
response is falsy or its `text` reads back as missing (`None`) or the
empty string, `generate_summary` returns exactly
`"No summary available."` — not an empty string, not a trimmed value,
not an error message. -/
theorem no_summary_fallback (collab : String → CollabResult)
    (text : String)
    (h : collab ("Summarize this chat: " ++ text) = .responds none
       ∨ ∃ resp : GenResponse,
           collab ("Summarize this chat: " ++ text) = .responds (some resp)
           ∧ (resp.text = .ok none ∨ resp.text = .ok (some ""))) :
    generate_summary collab text = "No summary available." := by
  rcases h with h | ⟨resp, hresp, ht | ht⟩
  · simp [generate_summary, h]
  · simp [generate_summary, hresp, ht, textTruthy]
  · simp [generate_summary, hresp, ht, textTruthy]

/-- Witness for C10: a collaborator returning a response whose text is
the empty string. -/
theorem no_summary_fallback_witness :
    generate_summary (fun _ => .responds (some ⟨.ok (some "")⟩)) "hi"
      = "No summary available." :=
  no_summary_fallback (fun _ => .responds (some ⟨.ok (some "")⟩)) "hi"
    (Or.inr ⟨⟨.ok (some "")⟩, rfl, Or.inr rfl⟩)

/-- C7: the claim says POST /chats/summarize is handled by the
summarization operation.  It is not: `POST /chats/{conversation_id}`
(`add_message`, line 96) is registered before `POST /chats/summarize`
(`summarize_chat`, line 127), and Starlette dispatches to the first
matching route, so a POST to /chats/summarize is captured by
`add_message` with path parameter `conversation_id = "summarize"`; the
`summarize_chat` route, though registered, is unreachable.  Moreover,
even if its body were accepted as a `ChatMessage`, the request would
look up the conversation id "summarize": against a table that holds the
target conversation but no conversation literally named "summarize",
the outcome is 404, never the summary. -/
theorem summarize_route_shadowed :
    (dispatch .post ["chats", "summarize"]).map Route.handler
      = some Handler.addMessage
    ∧ Handler.addMessage ≠ Handler.summarizeChat
    ∧ (⟨.post, [.lit "chats", .lit "summarize"], .summarizeChat⟩ : Route)
        ∈ routes
    ∧ (add_message [⟨"c1", "u", ["hi"]⟩] "summarize" ⟨"u", "x"⟩ true).2
        = .error .notFound := by
  refine ⟨by decide, by decide, by decide, rfl⟩

/-- C8: for each write handler (`store_chat`, `add_message`,
`delete_chat`), when `session.commit()` fails the handler rolls back
before surfacing the 500 "Database error": the table after the request
equals the table before it, so no partial mutation is visible to
subsequent reads. -/
theorem rollback_on_commit_failure (db : Db) (cid conv_id : String)
    (m : ChatMessage) (chat : Chat)
    (hfound : getChatRow db cid = some chat)
    (hown : chat.user_id = m.user_id) :
    store_chat db conv_id m false = (db, .error .dbError)
    ∧ add_message db cid m false = (db, .error .dbError)
    ∧ delete_chat db cid false = (db, .error .dbError) := by
  refine ⟨rfl, ?_, ?_⟩
  · unfold add_message
    rw [hfound]
    simp [hown]
  · unfold delete_chat
    rw [hfound]
    rfl

/-- Witness for C8 at a one-row table whose commit fails. -/
theorem rollback_on_commit_failure_witness :
    store_chat [⟨"c1", "u", ["hi"]⟩] "c2" ⟨"u", "x"⟩ false
      = ([⟨"c1", "u", ["hi"]⟩], .error .dbError)
    ∧ add_message [⟨"c1", "u", ["hi"]⟩] "c1" ⟨"u", "x"⟩ false
      = ([⟨"c1", "u", ["hi"]⟩], .error .dbError)
    ∧ delete_chat [⟨"c1", "u", ["hi"]⟩] "c1" false
      = ([⟨"c1", "u", ["hi"]⟩], .error .dbError) :=
  rollback_on_commit_failure [⟨"c1", "u", ["hi"]⟩] "c1" "c2" ⟨"u", "x"⟩
    ⟨"c1", "u", ["hi"]⟩ (by decide) (by decide)

/-- C9: `get_user_chats` is total — it returns a plain list for every
`page` and `limit`, an out-of-range window never being an error — and
whenever `(page-1)*limit` is at least the number of the user's
conversations, it returns the empty list (Python slicing past the end
of a list yields the empty slice). -/
theorem pagination_total (db : Db) (uid : String) (page limit : Nat)
    (h : (userRows db uid).length ≤ (page - 1) * limit) :
    get_user_chats db uid page limit = [] := by
  simp [get_user_chats, List.drop_eq_nil_of_le h]

/-- Witness for C9: one stored conversation, `page = 2`, `limit = 10`. -/
theorem pagination_total_witness :
    get_user_chats [⟨"c1", "u", ["hi"]⟩] "u" 2 10 = [] :=
  pagination_total [⟨"c1", "u", ["hi"]⟩] "u" 2 10 (by decide)

end FastapiChat
